import Mathlib

/-!
Verification development for the revolute-module firmware in
src/Thesis_Revolute_Eval/main.c (a PSoC CY8C29466 design).

The firmware is a single-threaded event loop over a handful of global
scalars.  We embed it shallowly:

* C `char` values are modelled as `Nat` (the PSoC C compiler treats plain
  `char` as unsigned, and every value the program stores is a byte);
* the `int` flags `CONFIGURED` and `TIMEOUT` are modelled as `Bool`
  (the program only ever stores 0 or 1 in them);
* each UART receive channel is modelled as the list of bytes that arrive
  while the corresponding role is listening; per the spec's collaborator
  interface, `cReadChar()` is a non-destructive peek that returns 0 when
  no byte is available, and `cGetChar()` is a blocking, consuming read
  (a read that can never be served is modelled as divergence, i.e. the
  embedding returns `none`);
* hardware timers are modelled by a set (list) of running timer ids, one
  per role; a timer ISR can fire only while its timer runs.  A polling
  loop that makes no progress on its input is exited by the ISR setting
  `TIMEOUT` when (and only when) a timer for the loaded configuration is
  running; otherwise the loop diverges (`none`);
* unbounded retry loops take a fuel argument; exhausting the fuel yields
  `none`, standing for "the loop has not returned yet";
* transmissions and configuration switches are recorded in an event
  trace.  GPIO writes (LED, servo-id display, bus group-select) are not
  observable by any claim and are omitted.
-/

/-- The module's global mutable state (main.c lines 114-128).  `STATE`
holds the id of the currently loaded hardware configuration, 0 when none
is loaded yet; the ids follow the mode defines of main.c lines 27-34:
1 = WAIT, 2 = MY_RESPONSE, 3..6 = RESPONSE_1..RESPONSE_4, 7 = HELLO_MODE,
8 = the servo receive configuration.  `timers` is the set of running
role-timeout timers, identified by the id of the role that started them
(3..6 child timers, 7 hello timer, 8 servo-init timer; the MY_RESPONSE
setup timer is started and stopped inside the switch itself and so never
remains running). -/
structure MState where
  CHILD : Nat
  ID : Nat
  CONFIGURED : Bool
  TIMEOUT : Bool
  STATE : Nat
  COMMAND_SOURCE : Nat
  COMMAND_DESTINATION : Nat
  COMMAND_TYPE : Nat
  COMMAND_PARAM : Nat
  COMMAND_LENGTH : Nat
  COMMAND_ERROR : Nat
  SERVO_ID : Nat
  timers : List Nat
  deriving DecidableEq, Repr

/-- The receive-side environment of one run.  `waitRx` is the byte stream
of the WAIT_RECV receiver (port 0, master side), `hello1..hello4` and
`child1..child4` the streams of the hello and child-response receivers
(those are only ever peeked by the program, never consumed), `initRx`
the buffer of the servo receiver, and `sessions` the queue of byte lists
delivered to the servo receiver, one list per entry into the servo
receive configuration (a configuration swap drains the receive buffer,
so every listening window starts from a fresh buffer). -/
structure Bus where
  waitRx : List Nat
  hello1 : List Nat
  hello2 : List Nat
  hello3 : List Nat
  hello4 : List Nat
  child1 : List Nat
  child2 : List Nat
  child3 : List Nat
  child4 : List Nat
  initRx : List Nat
  sessions : List (List Nat)
  deriving DecidableEq, Repr

/-- Observable events of a run: a byte written on the TX_014 transmitter
(ports 0/1/4), a byte written on the TX_23 transmitter (ports 2/3), the
spin on the respective transmit-complete status, and a completed
configuration switch to the given mode. -/
inductive Ev where
  | tx014 (b : Nat)
  | tx23 (b : Nat)
  | txWait014
  | txWait23
  | cfg (mode : Nat)
  deriving DecidableEq, Repr

/-- Tearing down the configuration named by `STATE` also tears down the
role-timeout timer belonging to it (unloadConfig, main.c lines 717-751);
when `STATE` is 0 every configuration is blindly unloaded
(unloadAllConfigs, lines 703-713). -/
def unloadTimers (s : MState) : List Nat :=
  if s.STATE = 0 then [] else s.timers.filter (fun t => t != s.STATE)

/-- configToggle (main.c lines 183-399).  Unloads the old configuration,
loads the requested one, clears `TIMEOUT` and starts the role's timer for
the receive-like modes, and publishes the new `STATE`.  The MY_RESPONSE
branch (lines 213-239) additionally spins for one settlement period on
its setup timer: it starts the TX_01234 timer, waits for the ISR to set
`TIMEOUT`, stops the timer and clears `TIMEOUT` again, so on exit
`TIMEOUT` is false and no timer of its own remains running.  The WAIT
branch (lines 201-212) starts the receivers only: it arms no timer and
does not touch `TIMEOUT`.  GPIO effects (lines 185-188 and 360-398) are
not modelled. -/
def configToggle (mode : Nat) (s : MState) : MState :=
  if mode = 1 then { s with STATE := 1, timers := unloadTimers s }
  else if mode = 2 then { s with TIMEOUT := false, STATE := 2, timers := unloadTimers s }
  else if mode = 3 then { s with TIMEOUT := false, STATE := 3, timers := 3 :: unloadTimers s }
  else if mode = 4 then { s with TIMEOUT := false, STATE := 4, timers := 4 :: unloadTimers s }
  else if mode = 5 then { s with TIMEOUT := false, STATE := 5, timers := 5 :: unloadTimers s }
  else if mode = 6 then { s with TIMEOUT := false, STATE := 6, timers := 6 :: unloadTimers s }
  else if mode = 7 then { s with TIMEOUT := false, STATE := 7, timers := 7 :: unloadTimers s }
  else if mode = 8 then { s with TIMEOUT := false, STATE := 8, timers := 8 :: unloadTimers s }
  else { s with timers := unloadTimers s }

/-- commandReady (main.c lines 404-504).  Returns `some (s, bus, ready)`
with `ready = true` when a command was read, `none` when the code would
block forever inside a consuming `cGetChar` whose byte never arrives.

In the WAIT branch (lines 408-424) the code peeks with
`WAIT_RECV_cReadChar()` and compares against START_TRANSMIT (248); since
the peek is non-destructive, the following `WAIT_RECV_cGetChar()`
consumes that same byte (necessarily 248 again), and the next four
consumed bytes are stored as source, destination, type and param.

In the HELLO branch (lines 425-452) the four hello ports are peeked in
order and `CHILD` is set to the port letter (65..68 = 'A'..'D') of the
first port whose next byte is 248.  In the RESPONSE_1..4 branches (lines
453-484) the corresponding child port is peeked for END_TRANSMIT (85).
In the servo-receive branch (lines 485-501) a peeked 255 (SERVO_START)
is consumed together with four payload bytes stored as source, length,
error and param. -/
def commandReady (s : MState) (bus : Bus) : Option (MState × Bus × Bool) :=
  if s.STATE = 1 then
    match bus.waitRx with
    | b :: rest =>
      if b = 248 then
        match rest with
        | src :: dst :: ty :: prm :: rest2 =>
          some ({ s with COMMAND_SOURCE := src, COMMAND_DESTINATION := dst,
                         COMMAND_TYPE := ty, COMMAND_PARAM := prm },
                { bus with waitRx := rest2 }, true)
        | _ => none
      else some (s, bus, false)
    | [] => some (s, bus, false)
  else if s.STATE = 7 then
    if bus.hello1.headD 0 = 248 then some ({ s with CHILD := 65 }, bus, true)
    else if bus.hello2.headD 0 = 248 then some ({ s with CHILD := 66 }, bus, true)
    else if bus.hello3.headD 0 = 248 then some ({ s with CHILD := 67 }, bus, true)
    else if bus.hello4.headD 0 = 248 then some ({ s with CHILD := 68 }, bus, true)
    else some (s, bus, false)
  else if s.STATE = 3 then some (s, bus, bus.child1.headD 0 = 85)
  else if s.STATE = 4 then some (s, bus, bus.child2.headD 0 = 85)
  else if s.STATE = 5 then some (s, bus, bus.child3.headD 0 = 85)
  else if s.STATE = 6 then some (s, bus, bus.child4.headD 0 = 85)
  else if s.STATE = 8 then
    match bus.initRx with
    | b :: rest =>
      if b = 255 then
        match rest with
        | src :: len :: err :: prm :: rest2 =>
          some ({ s with COMMAND_SOURCE := src, COMMAND_LENGTH := len,
                         COMMAND_ERROR := err, COMMAND_PARAM := prm },
                { bus with initRx := rest2 }, true)
        | _ => none
      else some (s, bus, false)
    | [] => some (s, bus, false)
  else some (s, bus, false)

/-- sayHello (main.c lines 161-179): switch to MY_RESPONSE, write the
eight-byte hello frame 248 248 ID 0 200 CHILD 85 85 on the TX_014 group
only, spin on the TX_014 transmit-complete flag, switch back to WAIT. -/
def sayHello (s : MState) : MState × List Ev :=
  let s1 := configToggle 2 s
  (configToggle 1 s1,
   [Ev.cfg 2, Ev.tx014 248, Ev.tx014 248, Ev.tx014 s1.ID, Ev.tx014 0,
    Ev.tx014 200, Ev.tx014 s1.CHILD, Ev.tx014 85, Ev.tx014 85,
    Ev.txWait014, Ev.cfg 1])

/-- pingResponse (main.c lines 674-699): switch to MY_RESPONSE, write the
frame 248 248 ID 0 203 85 85 interleaved on both TX groups, spin on both
transmit-complete flags, switch back to WAIT. -/
def pingResponse (s : MState) : MState × List Ev :=
  let s1 := configToggle 2 s
  (configToggle 1 s1,
   [Ev.cfg 2, Ev.tx014 248, Ev.tx23 248, Ev.tx014 248, Ev.tx23 248,
    Ev.tx014 s1.ID, Ev.tx23 s1.ID, Ev.tx014 0, Ev.tx23 0,
    Ev.tx014 203, Ev.tx23 203, Ev.tx014 85, Ev.tx23 85,
    Ev.tx014 85, Ev.tx23 85, Ev.txWait014, Ev.txWait23, Ev.cfg 1])

/-- assignedID (main.c lines 754-779): switch to MY_RESPONSE, write the
frame 248 248 ID 0 202 85 85 interleaved on both TX groups, spin on both
transmit-complete flags, switch back to WAIT. -/
def assignedID (s : MState) : MState × List Ev :=
  let s1 := configToggle 2 s
  (configToggle 1 s1,
   [Ev.cfg 2, Ev.tx014 248, Ev.tx23 248, Ev.tx014 248, Ev.tx23 248,
    Ev.tx014 s1.ID, Ev.tx23 s1.ID, Ev.tx014 0, Ev.tx23 0,
    Ev.tx014 202, Ev.tx23 202, Ev.tx014 85, Ev.tx23 85,
    Ev.tx014 85, Ev.tx23 85, Ev.txWait014, Ev.txWait23, Ev.cfg 1])

/-- configCleared (main.c lines 646-671): switch to MY_RESPONSE, write
the frame 248 248 ID 0 205 85 85 interleaved on both TX groups, spin on
both transmit-complete flags, switch back to WAIT. -/
def configCleared (s : MState) : MState × List Ev :=
  let s1 := configToggle 2 s
  (configToggle 1 s1,
   [Ev.cfg 2, Ev.tx014 248, Ev.tx23 248, Ev.tx014 248, Ev.tx23 248,
    Ev.tx014 s1.ID, Ev.tx23 s1.ID, Ev.tx014 0, Ev.tx23 0,
    Ev.tx014 205, Ev.tx23 205, Ev.tx014 85, Ev.tx23 85,
    Ev.tx014 85, Ev.tx23 85, Ev.txWait014, Ev.txWait23, Ev.cfg 1])

/-- The checksum computed by servoInstruction (main.c line 1027):
255 - ((id + length + instruction + address + value) mod 256). -/
def servoChecksum (id len instr addr val : Nat) : Nat :=
  255 - ((id + len + instr + addr + val) % 256)

/-- servoInstruction (main.c lines 1015-1057): switch to MY_RESPONSE,
write the servo packet on TX_014 (six bytes for a ping instruction,
instruction number 1; eight bytes otherwise), spin on the TX_014
transmit-complete flag, then switch to the servo receive configuration.
Entering the servo receive configuration gives the receiver a fresh
buffer, modelled by popping the next session from `bus.sessions`. -/
def servoInstruction (id len instr addr val : Nat) (s : MState) (bus : Bus) :
    MState × Bus × List Ev :=
  let s1 := configToggle 2 s
  let chk := servoChecksum id len instr addr val
  let bytes := if instr = 1 then [255, 255, id, len, instr, chk]
               else [255, 255, id, len, instr, addr, val, chk]
  (configToggle 8 s1,
   { bus with initRx := bus.sessions.headD [], sessions := bus.sessions.tail },
   [Ev.cfg 2] ++ bytes.map Ev.tx014 ++ [Ev.txWait014, Ev.cfg 8])

/-- One servo-receive polling session of the re-ID procedure: the body of
the `while(!TIMEOUT)` loop at main.c lines 581-602, which repeatedly runs
the servo-receive branch of commandReady on the current buffer.  A parsed
reply with error 0 and source equal to `ID` sets `TIMEOUT` (to leave the
while loop), records `SERVO_ID := ID` and toggles back to WAIT.  When no
further byte can be parsed (empty buffer, or a head byte that is not 255
and hence is never consumed by the peek) the loop makes no progress and
is left by the servo-init timer ISR setting `TIMEOUT`.  A 255 head with a
frame that is never completed leaves the code blocked inside `cGetChar`:
`none`. -/
def initListenGo (s : MState) : List Nat → Option (MState × List Nat)
  | [] => some ({ s with TIMEOUT := true }, [])
  | b :: rest =>
    if b = 255 then
      match rest with
      | src :: len :: err :: prm :: rest2 =>
        let s1 := { s with COMMAND_SOURCE := src, COMMAND_LENGTH := len,
                           COMMAND_ERROR := err, COMMAND_PARAM := prm }
        if err = 0 then
          if src = s1.ID then
            some (configToggle 1 { s1 with TIMEOUT := true, SERVO_ID := s1.ID }, rest2)
          else initListenGo s1 rest2
        else initListenGo s1 rest2
      | _ => none
    else some ({ s with TIMEOUT := true }, b :: rest)

/-- The servo-receive polling loop run on the current buffer; entered
with `TIMEOUT` already set it does not run at all (the surrounding
`while(!TIMEOUT)` test, line 581). -/
def initListen (s : MState) (bus : Bus) : Option (MState × Bus) :=
  if s.TIMEOUT = true then some (s, bus)
  else
    match initListenGo s bus.initRx with
    | none => none
    | some (s1, rx1) => some (s1, { bus with initRx := rx1 })

/-- The `for(i = 0; i < SERVO_COMM_ATTEMPTS; i++)` retry loop of the
re-ID procedure (main.c lines 575-603): each attempt broadcasts a servo
ping (line 578) and listens; a successful listen sets `i` past the bound
so that the loop exits, observable as `SERVO_ID = ID` afterwards. -/
def reIdPings : Nat → MState → Bus → List Ev → Option (MState × Bus × List Ev)
  | 0, s, bus, tr => some (s, bus, tr)
  | Nat.succ k, s, bus, tr =>
    let r := servoInstruction 254 2 1 0 0 s bus
    match initListen r.1 r.2.1 with
    | none => none
    | some (s2, bus2) =>
      if s2.SERVO_ID = s2.ID then some (s2, bus2, tr ++ r.2.2)
      else reIdPings k s2 bus2 (tr ++ r.2.2)

/-- The outer `while(ID != SERVO_ID)` loop of the re-ID procedure
(main.c lines 569-604): write the module's ID into the servo's EEPROM id
address (address 3) addressing the current `SERVO_ID` (line 572), then
run up to ten ping-and-listen attempts.  The loop has no bound in the
source; the fuel counts outer iterations and `none` means the loop has
not returned. -/
def reIdLoop : Nat → MState → Bus → List Ev → Option (MState × Bus × List Ev)
  | 0, _, _, _ => none
  | Nat.succ fuel, s, bus, tr =>
    if s.ID = s.SERVO_ID then some (s, bus, tr)
    else
      let r := servoInstruction s.SERVO_ID 4 3 3 s.ID s bus
      match reIdPings 10 r.1 r.2.1 (tr ++ r.2.2) with
      | none => none
      | some (s2, bus2, tr2) => reIdLoop fuel s2 bus2 tr2

/-- childListen (main.c lines 782-801): switch to HELLO_MODE (which arms
the hello timer) and poll commandReady until it reports a command or the
hello timer ISR sets `TIMEOUT`.  The hello receivers are only peeked, so
the first poll decides.  On success (line 791) the function returns 1
straight from inside the loop, leaving the hello timer running and
`TIMEOUT` untouched; on timeout it stops the timer, clears `TIMEOUT` and
toggles back to WAIT. -/
def childListen (s : MState) (bus : Bus) : Option (MState × Bus × Bool × List Ev) :=
  match commandReady (configToggle 7 s) bus with
  | none => none
  | some (s2, bus2, true) => some (s2, bus2, true, [Ev.cfg 7])
  | some (s2, bus2, false) =>
    -- the hello ISR sets TIMEOUT, then the function stops the timer and
    -- clears TIMEOUT again (lines 795-796): the net state change is the
    -- stopped timer, with TIMEOUT back at false
    some (configToggle 1
      { s2 with TIMEOUT := false, timers := s2.timers.filter (fun t => t != 7) },
      bus2, false, [Ev.cfg 7, Ev.cfg 1])

/-- The `while((!child_responded) && (!TIMEOUT))` polling loop of
childResponse (main.c lines 827-833).  In the RESPONSE roles the child
port is only peeked, and in the WAIT role a byte is consumed only when
the head byte is 248, so the first poll decides: either a command is
ready now, or the loop makes no further progress and is left only by a
running timer's ISR setting `TIMEOUT`.  With no timer running the loop
never exits: `none`. -/
def crLoop (s : MState) (bus : Bus) : Option (MState × Bus × Bool) :=
  if s.TIMEOUT = true then some (s, bus, false)
  else
    match commandReady s bus with
    | none => none
    | some (s1, bus1, true) => some (s1, bus1, true)
    | some (s1, bus1, false) =>
      if s1.timers = [] then none
      else some ({ s1 with TIMEOUT := true }, bus1, false)

/-- The role switch at the top of childResponse (main.c lines 808-824):
the response role matching `CHILD` is loaded; any other value of `CHILD`
matches no branch and performs no switch at all. -/
def childRespPre (s : MState) : MState × List Ev :=
  if s.CHILD = 65 then (configToggle 3 s, [Ev.cfg 3])
  else if s.CHILD = 66 then (configToggle 4 s, [Ev.cfg 4])
  else if s.CHILD = 67 then (configToggle 5 s, [Ev.cfg 5])
  else if s.CHILD = 68 then (configToggle 6 s, [Ev.cfg 6])
  else (s, [])

/-- The timer stop at the bottom of childResponse (main.c lines 836-851):
the child timer matching `CHILD` is stopped. -/
def childRespStop (s2 : MState) : MState :=
  if s2.CHILD = 65 then { s2 with timers := s2.timers.filter (fun t => t != 3) }
  else if s2.CHILD = 66 then { s2 with timers := s2.timers.filter (fun t => t != 4) }
  else if s2.CHILD = 67 then { s2 with timers := s2.timers.filter (fun t => t != 5) }
  else if s2.CHILD = 68 then { s2 with timers := s2.timers.filter (fun t => t != 6) }
  else s2

/-- childResponse (main.c lines 804-858): switch to the response role
matching `CHILD`, poll for a response or a timeout, stop the timer
matching `CHILD`, clear `TIMEOUT` and toggle back to WAIT. -/
def childResponse (s : MState) (bus : Bus) : Option (MState × Bus × Bool × List Ev) :=
  match crLoop (childRespPre s).1 bus with
  | none => none
  | some (s2, bus2, responded) =>
    some (configToggle 1 { childRespStop s2 with TIMEOUT := false }, bus2, responded,
          (childRespPre s).2 ++ [Ev.cfg 1])

/-- takeAction (main.c lines 508-643), dispatching on the stored command.
HELLO (200): an unconfigured module says hello; a configured module
without a child listens for one and forwards the hello when it heard one;
a configured module with a child listens to that child.  PING (203): a
ping to this module's ID is answered; a ping to a larger ID defers to the
child.  ID_ASSIGNMENT (201): an assignment to this module's ID with a
param strictly between MASTER_ID (0) and DEFAULT_ID (251) stores the new
ID, marks the module configured, acknowledges, and re-IDs the servo when
it does not match; an assignment to a larger ID defers to the child.
CLEAR_CONFIG (204): an exact match is acknowledged; a destination at or
below this module's ID, or the broadcast id 254, resets ID, CONFIGURED
and CHILD.  Anything else is ignored. -/
def takeAction (fuel : Nat) (s : MState) (bus : Bus) : Option (MState × Bus × List Ev) :=
  if s.COMMAND_TYPE = 200 then
    if s.CONFIGURED = false then
      some ((sayHello s).1, bus, (sayHello s).2)
    else if s.CHILD = 0 then
      match childListen s bus with
      | none => none
      | some (s1, bus1, true, tr1) =>
        some ((sayHello s1).1, bus1, tr1 ++ (sayHello s1).2)
      | some (s1, bus1, false, tr1) => some (s1, bus1, tr1)
    else
      match childResponse s bus with
      | none => none
      | some (s1, bus1, _, tr1) => some (s1, bus1, tr1)
  else if s.COMMAND_TYPE = 203 then
    if s.COMMAND_DESTINATION = s.ID then
      some ((pingResponse s).1, bus, (pingResponse s).2)
    else if s.ID < s.COMMAND_DESTINATION then
      match childResponse s bus with
      | none => none
      | some (s1, bus1, _, tr1) => some (s1, bus1, tr1)
    else some (s, bus, [])
  else if s.COMMAND_TYPE = 201 then
    if s.COMMAND_DESTINATION = s.ID then
      if 0 < s.COMMAND_PARAM ∧ s.COMMAND_PARAM < 251 then
        let r := assignedID { s with ID := s.COMMAND_PARAM, CONFIGURED := true }
        if r.1.ID = r.1.SERVO_ID then some (r.1, bus, r.2)
        else reIdLoop fuel r.1 bus r.2
      else some (s, bus, [])
    else if s.ID < s.COMMAND_DESTINATION then
      match childResponse s bus with
      | none => none
      | some (s1, bus1, _, tr1) => some (s1, bus1, tr1)
    else some (s, bus, [])
  else if s.COMMAND_TYPE = 204 then
    let r : MState × List Ev :=
      if s.COMMAND_DESTINATION = s.ID then configCleared s else (s, [])
    if r.1.COMMAND_DESTINATION ≤ r.1.ID ∨ r.1.COMMAND_DESTINATION = 254 then
      some ({ r.1 with ID := 251, CONFIGURED := false, CHILD := 0 }, bus, r.2)
    else some (r.1, bus, r.2)
  else some (s, bus, [])

/-- The state after main's initialisation (main.c lines 132-138; the
remaining command fields are zero-initialised statics). -/
def initState : MState :=
  { CHILD := 0, ID := 251, CONFIGURED := false, TIMEOUT := false, STATE := 0,
    COMMAND_SOURCE := 0, COMMAND_DESTINATION := 0, COMMAND_TYPE := 0,
    COMMAND_PARAM := 0, COMMAND_LENGTH := 0, COMMAND_ERROR := 0,
    SERVO_ID := 255, timers := [] }

/-- Whether the re-ID polling session on buffer `rx` reaches a servo
reply with error 0 and source `idv`, following exactly the parse of
`initListenGo`. -/
def hasValidReply (idv : Nat) : List Nat → Bool
  | b :: src :: _ :: err :: _ :: rest2 =>
    if b = 255 then
      (if err = 0 then (if src = idv then true else hasValidReply idv rest2)
       else hasValidReply idv rest2)
    else false
  | _ => false

theorem configToggle_ID (m : Nat) (s : MState) : (configToggle m s).ID = s.ID := by
  unfold configToggle
  repeat' split
  all_goals rfl

theorem configToggle_CONFIGURED (m : Nat) (s : MState) :
    (configToggle m s).CONFIGURED = s.CONFIGURED := by
  unfold configToggle
  repeat' split
  all_goals rfl

theorem configToggle_CHILD (m : Nat) (s : MState) : (configToggle m s).CHILD = s.CHILD := by
  unfold configToggle
  repeat' split
  all_goals rfl

theorem configToggle_SERVO_ID (m : Nat) (s : MState) :
    (configToggle m s).SERVO_ID = s.SERVO_ID := by
  unfold configToggle
  repeat' split
  all_goals rfl

theorem configToggle_cmd (m : Nat) (s : MState) :
    (configToggle m s).COMMAND_SOURCE = s.COMMAND_SOURCE ∧
    (configToggle m s).COMMAND_DESTINATION = s.COMMAND_DESTINATION ∧
    (configToggle m s).COMMAND_TYPE = s.COMMAND_TYPE ∧
    (configToggle m s).COMMAND_PARAM = s.COMMAND_PARAM ∧
    (configToggle m s).COMMAND_LENGTH = s.COMMAND_LENGTH ∧
    (configToggle m s).COMMAND_ERROR = s.COMMAND_ERROR := by
  unfold configToggle
  repeat' split
  all_goals exact ⟨rfl, rfl, rfl, rfl, rfl, rfl⟩

theorem commandReady_spec (s : MState) (bus : Bus) (out : MState × Bus × Bool)
    (h : commandReady s bus = some out) :
    out.1.ID = s.ID ∧ out.1.CONFIGURED = s.CONFIGURED ∧ out.1.SERVO_ID = s.SERVO_ID ∧
    out.1.STATE = s.STATE ∧ out.1.timers = s.timers ∧ out.1.TIMEOUT = s.TIMEOUT := by
  unfold commandReady at h
  repeat' split at h
  all_goals first
    | (injection h with h; subst h; simp)
    | exact Option.noConfusion h

theorem initListenGo_spec (s : MState) (rx : List Nat) (out : MState × List Nat)
    (h : initListenGo s rx = some out) :
    out.1.ID = s.ID ∧ out.1.CONFIGURED = s.CONFIGURED ∧ out.1.CHILD = s.CHILD ∧
    out.1.TIMEOUT = true ∧
    (hasValidReply s.ID rx = true → out.1.SERVO_ID = s.ID ∧ out.1.STATE = 1) ∧
    (hasValidReply s.ID rx = false → out.1.SERVO_ID = s.SERVO_ID ∧ out.1.STATE = s.STATE) := by
  obtain ⟨o1, o2⟩ := out
  induction s, rx using initListenGo.induct with
  | case1 s =>
    simp only [initListenGo, Option.some.injEq, Prod.mk.injEq] at h
    obtain ⟨h1, h2⟩ := h
    subst h1
    simp [hasValidReply]
  | case2 s src dst prm rest2 s1 hsrc =>
    have hsrc2 : src = s.ID := hsrc
    simp [initListenGo, hsrc2, Prod.mk.injEq] at h
    obtain ⟨h1, h2⟩ := h
    subst h1
    simp [hasValidReply, hsrc2, configToggle, unloadTimers]
  | case3 s src dst prm rest2 s1 hsrc ih =>
    have hsrc2 : ¬src = s.ID := hsrc
    simp [initListenGo, hsrc2] at h
    have := ih h
    simpa [hasValidReply, hsrc2] using this
  | case4 s src dst ty prm rest2 s1 hty ih =>
    simp [initListenGo, hty] at h
    have := ih h
    simpa [hasValidReply, hty] using this
  | case5 s rest hshape =>
    rcases rest with _ | ⟨x1, _ | ⟨x2, _ | ⟨x3, _ | ⟨x4, r⟩⟩⟩⟩
    · simp [initListenGo] at h
    · simp [initListenGo] at h
    · simp [initListenGo] at h
    · simp [initListenGo] at h
    · exact (hshape x1 x2 x3 x4 r rfl).elim
  | case6 s b rest hb =>
    rcases rest with _ | ⟨x1, _ | ⟨x2, _ | ⟨x3, _ | ⟨x4, r⟩⟩⟩⟩ <;>
      (simp [initListenGo, hb, Prod.mk.injEq] at h;
       obtain ⟨h1, h2⟩ := h;
       subst h1;
       simp [hasValidReply, hb])

theorem initListen_sessions (s : MState) (bus : Bus) (out : MState × Bus)
    (h : initListen s bus = some out) : out.2.sessions = bus.sessions := by
  unfold initListen at h
  split at h
  · injection h with h
    subst h
    rfl
  · cases hgo : initListenGo s bus.initRx with
    | none =>
      rw [hgo] at h
      exact Option.noConfusion h
    | some p =>
      obtain ⟨s1, rx1⟩ := p
      rw [hgo] at h
      injection h with h
      subst h
      rfl

theorem initListen_spec (s : MState) (bus : Bus) (out : MState × Bus)
    (hT : s.TIMEOUT = false) (h : initListen s bus = some out) :
    out.1.ID = s.ID ∧ out.1.CONFIGURED = s.CONFIGURED ∧ out.1.CHILD = s.CHILD ∧
    out.1.TIMEOUT = true ∧ out.2.sessions = bus.sessions ∧
    (hasValidReply s.ID bus.initRx = true → out.1.SERVO_ID = s.ID ∧ out.1.STATE = 1) ∧
    (hasValidReply s.ID bus.initRx = false →
      out.1.SERVO_ID = s.SERVO_ID ∧ out.1.STATE = s.STATE) := by
  have hsess := initListen_sessions s bus out h
  unfold initListen at h
  rw [hT] at h
  simp only [Bool.false_eq_true, if_false] at h
  cases hgo : initListenGo s bus.initRx with
  | none =>
    rw [hgo] at h
    exact Option.noConfusion h
  | some p =>
    obtain ⟨s1, rx1⟩ := p
    rw [hgo] at h
    injection h with h
    subst h
    have hspec := initListenGo_spec s bus.initRx (s1, rx1) hgo
    exact ⟨hspec.1, hspec.2.1, hspec.2.2.1, hspec.2.2.2.1, hsess,
           hspec.2.2.2.2.1, hspec.2.2.2.2.2⟩

/-- The event trace of the servo EEPROM id WRITE issued by the re-ID
procedure (main.c line 572): instruction 3 (WRITE), length 4, EEPROM
address 3 (ID_ADDRESS), value `idv`, addressed to servo id `sid`. -/
def servoWriteEvs (sid idv : Nat) : List Ev :=
  [Ev.cfg 2, Ev.tx014 255, Ev.tx014 255, Ev.tx014 sid, Ev.tx014 4, Ev.tx014 3,
   Ev.tx014 3, Ev.tx014 idv, Ev.tx014 (servoChecksum sid 4 3 3 idv),
   Ev.txWait014, Ev.cfg 8]

/-- The event trace of the broadcast servo PING issued by the retry loop
(main.c line 578): instruction 1 (PING), length 2, broadcast id 254. -/
def servoPingEvs : List Ev :=
  [Ev.cfg 2, Ev.tx014 255, Ev.tx014 255, Ev.tx014 254, Ev.tx014 2, Ev.tx014 1,
   Ev.tx014 (servoChecksum 254 2 1 0 0), Ev.txWait014, Ev.cfg 8]

theorem servoInstruction_write_evs (sid idv : Nat) (s : MState) (bus : Bus) :
    (servoInstruction sid 4 3 3 idv s bus).2.2 = servoWriteEvs sid idv := rfl

theorem servoInstruction_ping_evs (s : MState) (bus : Bus) :
    (servoInstruction 254 2 1 0 0 s bus).2.2 = servoPingEvs := rfl

theorem servoInstruction_fields (id len instr addr val : Nat) (s : MState) (bus : Bus) :
    (servoInstruction id len instr addr val s bus).1.ID = s.ID ∧
    (servoInstruction id len instr addr val s bus).1.CONFIGURED = s.CONFIGURED ∧
    (servoInstruction id len instr addr val s bus).1.CHILD = s.CHILD ∧
    (servoInstruction id len instr addr val s bus).1.SERVO_ID = s.SERVO_ID ∧
    (servoInstruction id len instr addr val s bus).1.TIMEOUT = false ∧
    (servoInstruction id len instr addr val s bus).1.STATE = 8 ∧
    (servoInstruction id len instr addr val s bus).2.1.initRx = bus.sessions.headD [] ∧
    (servoInstruction id len instr addr val s bus).2.1.sessions = bus.sessions.tail :=
  ⟨rfl, rfl, rfl, rfl, rfl, rfl, rfl, rfl⟩

theorem reIdPings_spec (k : Nat) (s : MState) (bus : Bus) (tr : List Ev)
    (out : MState × Bus × List Ev) (hne : s.ID ≠ s.SERVO_ID)
    (h : reIdPings k s bus tr = some out) :
    out.1.ID = s.ID ∧ out.1.CONFIGURED = s.CONFIGURED ∧ out.1.CHILD = s.CHILD ∧
    (∃ ext, out.2.2 = tr ++ ext) ∧
    (∃ n, n ≤ k ∧ out.2.1.sessions = bus.sessions.drop n) ∧
    (out.1.SERVO_ID = out.1.ID →
      out.1.TIMEOUT = true ∧ out.1.STATE = 1 ∧
      ∃ sess ∈ bus.sessions, hasValidReply s.ID sess = true) ∧
    (out.1.SERVO_ID ≠ out.1.ID → out.1.SERVO_ID = s.SERVO_ID) := by
  induction k generalizing s bus tr with
  | zero =>
    simp only [reIdPings, Option.some.injEq] at h
    subst h
    refine ⟨rfl, rfl, rfl, ⟨[], by simp⟩, ⟨0, by simp⟩, ?_, fun _ => rfl⟩
    intro hc
    exact absurd hc.symm hne
  | succ k ih =>
    have hf := servoInstruction_fields 254 2 1 0 0 s bus
    simp only [reIdPings] at h
    split at h
    · exact Option.noConfusion h
    · rename_i p s2 bus2 heq
      have hspec := initListen_spec _ _ _ hf.2.2.2.2.1 heq
      rw [hf.1, hf.2.1, hf.2.2.1, hf.2.2.2.1, hf.2.2.2.2.2.2.1,
          hf.2.2.2.2.2.2.2] at hspec
      have hid2 : s2.ID = s.ID := hspec.1
      have hconf2 : s2.CONFIGURED = s.CONFIGURED := hspec.2.1
      have hchild2 : s2.CHILD = s.CHILD := hspec.2.2.1
      have hsess2 : bus2.sessions = bus.sessions.tail := hspec.2.2.2.2.1
      cases hv : hasValidReply s.ID (bus.sessions.headD []) with
      | true =>
        have hsv : s2.SERVO_ID = s.ID ∧ s2.STATE = 1 := hspec.2.2.2.2.2.1 hv
        have hsv2 : s2.SERVO_ID = s2.ID := by rw [hsv.1, hid2]
        rw [if_pos hsv2] at h
        injection h with h
        subst h
        have hmem : bus.sessions.headD [] ∈ bus.sessions := by
          cases hbs : bus.sessions with
          | nil =>
            rw [hbs] at hv
            simp [hasValidReply] at hv
          | cons c cs => simp [hbs]
        refine ⟨hid2, hconf2, hchild2, ⟨_, rfl⟩, ⟨1, by omega, by simp [hsess2]⟩, ?_, ?_⟩
        · intro _
          exact ⟨hspec.2.2.2.1, hsv.2, ⟨bus.sessions.headD [], hmem, hv⟩⟩
        · intro hc
          exact absurd hsv2 hc
      | false =>
        have hsv : s2.SERVO_ID = s.SERVO_ID ∧ s2.STATE = 8 := hspec.2.2.2.2.2.2 hv
        have hsv2 : ¬s2.SERVO_ID = s2.ID := by
          rw [hsv.1, hid2]
          exact fun hc => hne hc.symm
        rw [if_neg hsv2] at h
        have hne2 : s2.ID ≠ s2.SERVO_ID := fun hc => hsv2 hc.symm
        have hrec := ih s2 bus2 (tr ++ (servoInstruction 254 2 1 0 0 s bus).2.2) hne2 h
        obtain ⟨hA, hB, hC, ⟨ext, hD⟩, ⟨n, hn, hE⟩, hF, hG⟩ := hrec
        refine ⟨by rw [hA, hid2], by rw [hB, hconf2], by rw [hC, hchild2],
                ⟨(servoInstruction 254 2 1 0 0 s bus).2.2 ++ ext, by simp [hD]⟩,
                ⟨n + 1, by omega, ?_⟩, ?_, ?_⟩
        · rw [hE, hsess2, ← List.drop_one, List.drop_drop, Nat.add_comm]
        · intro hc
          obtain ⟨hT, hS, ⟨sess, hm, hvr⟩⟩ := hF hc
          refine ⟨hT, hS, ⟨sess, ?_, by rwa [hid2] at hvr⟩⟩
          have hmt : sess ∈ bus.sessions.tail := by rwa [hsess2] at hm
          rw [← List.drop_one] at hmt
          exact List.drop_subset 1 bus.sessions hmt
        · intro hc
          rw [hG hc, hsv.1]

theorem reIdPings_fail (k : Nat) (s : MState) (bus : Bus) (tr : List Ev)
    (hne : s.ID ≠ s.SERVO_ID)
    (hno : ∀ sess ∈ bus.sessions, hasValidReply s.ID sess = false) :
    reIdPings k s bus tr = none ∨
    ∃ s2 bus2 tr2, reIdPings k s bus tr = some (s2, bus2, tr2) ∧
      s2.ID = s.ID ∧ s2.SERVO_ID = s.SERVO_ID ∧
      ∃ n, bus2.sessions = bus.sessions.drop n := by
  cases hres : reIdPings k s bus tr with
  | none => exact Or.inl rfl
  | some out =>
    obtain ⟨o1, o2, o3⟩ := out
    obtain ⟨hA, hB, hC, hD, ⟨n, hn, hE⟩, hF, hG⟩ := reIdPings_spec k s bus tr _ hne hres
    right
    by_cases hs : o1.SERVO_ID = o1.ID
    · obtain ⟨_, _, ⟨sess, hm, hvr⟩⟩ := hF hs
      rw [hno sess hm] at hvr
      exact Bool.noConfusion hvr
    · exact ⟨o1, o2, o3, rfl, hA, hG hs, ⟨n, hE⟩⟩

theorem reIdLoop_spec (fuel : Nat) (s : MState) (bus : Bus) (tr : List Ev)
    (out : MState × Bus × List Ev) (h : reIdLoop fuel s bus tr = some out) :
    out.1.ID = s.ID ∧ out.1.CONFIGURED = s.CONFIGURED ∧
    (∃ ext, out.2.2 = tr ++ ext) ∧
    (s.ID = s.SERVO_ID → out = (s, bus, tr)) ∧
    (s.ID ≠ s.SERVO_ID →
      out.1.SERVO_ID = s.ID ∧ out.1.TIMEOUT = true ∧ out.1.STATE = 1 ∧
      (∃ sess ∈ bus.sessions, hasValidReply s.ID sess = true) ∧
      (∃ rest, out.2.2 = tr ++ servoWriteEvs s.SERVO_ID s.ID ++ rest)) := by
  induction fuel generalizing s bus tr with
  | zero => exact Option.noConfusion h
  | succ fuel ih =>
    simp only [reIdLoop] at h
    by_cases he : s.ID = s.SERVO_ID
    · rw [if_pos he] at h
      injection h with h
      subst h
      exact ⟨rfl, rfl, ⟨[], by simp⟩, fun _ => rfl, fun hc => absurd he hc⟩
    · rw [if_neg he] at h
      have hf := servoInstruction_fields s.SERVO_ID 4 3 3 s.ID s bus
      split at h
      · exact Option.noConfusion h
      · rename_i p s2 bus2 tr2 heq
        have hne1 : (servoInstruction s.SERVO_ID 4 3 3 s.ID s bus).1.ID ≠
            (servoInstruction s.SERVO_ID 4 3 3 s.ID s bus).1.SERVO_ID := by
          rw [hf.1, hf.2.2.2.1]
          exact he
        have hps := reIdPings_spec 10 _ _ _ _ hne1 heq
        rw [hf.1, hf.2.1, hf.2.2.1, hf.2.2.2.1, hf.2.2.2.2.2.2.2,
            servoInstruction_write_evs] at hps
        obtain ⟨hA, hB, hC, ⟨ext, hD⟩, ⟨n, hn, hE⟩, hF, hG⟩ := hps
        have hA2 : s2.ID = s.ID := hA
        have hB2 : s2.CONFIGURED = s.CONFIGURED := hB
        have hD2 : tr2 = tr ++ servoWriteEvs s.SERVO_ID s.ID ++ ext := hD
        have hE2 : bus2.sessions = List.drop n bus.sessions.tail := hE
        have hF2 : s2.SERVO_ID = s2.ID →
            s2.TIMEOUT = true ∧ s2.STATE = 1 ∧
            ∃ sess ∈ bus.sessions.tail, hasValidReply s.ID sess = true := hF
        have hrec := ih s2 bus2 tr2 h
        obtain ⟨rA, rB, ⟨ext2, rC⟩, rEq, rNe⟩ := hrec
        by_cases hs2 : s2.ID = s2.SERVO_ID
        · have hout : out = (s2, bus2, tr2) := rEq hs2
          subst hout
          have hFc := hF2 hs2.symm
          have hsv : s2.SERVO_ID = s.ID := hs2.symm.trans hA2
          refine ⟨hA2, hB2,
            ⟨servoWriteEvs s.SERVO_ID s.ID ++ ext, ?_⟩,
            fun hc => absurd hc he, fun _ => ⟨hsv, hFc.1, hFc.2.1, ?_, ⟨ext, hD2⟩⟩⟩
          · show tr2 = tr ++ (servoWriteEvs s.SERVO_ID s.ID ++ ext)
            rw [hD2, List.append_assoc]
          · obtain ⟨sess, hm, hvr⟩ := hFc.2.2
            refine ⟨sess, ?_, hvr⟩
            rw [← List.drop_one] at hm
            exact List.drop_subset 1 bus.sessions hm
        · have hrNe := rNe hs2
          refine ⟨rA.trans hA2, rB.trans hB2,
            ⟨servoWriteEvs s.SERVO_ID s.ID ++ ext ++ ext2, ?_⟩,
            fun hc => absurd hc he,
            fun _ => ⟨(hrNe.1).trans hA2, hrNe.2.1, hrNe.2.2.1, ?_, ?_⟩⟩
          · rw [rC, hD2]
            simp [List.append_assoc]
          · obtain ⟨sess, hm, hvr⟩ := hrNe.2.2.2.1
            rw [hA2] at hvr
            refine ⟨sess, ?_, hvr⟩
            rw [hE2] at hm
            have hm2 := List.drop_subset n bus.sessions.tail hm
            rw [← List.drop_one] at hm2
            exact List.drop_subset 1 bus.sessions hm2
          · refine ⟨ext ++ ext2, ?_⟩
            rw [rC, hD2]
            simp [List.append_assoc]

theorem reIdLoop_fail (fuel : Nat) (s : MState) (bus : Bus) (tr : List Ev)
    (hne : s.ID ≠ s.SERVO_ID)
    (hno : ∀ sess ∈ bus.sessions, hasValidReply s.ID sess = false) :
    reIdLoop fuel s bus tr = none := by
  induction fuel generalizing s bus tr with
  | zero => rfl
  | succ fuel ih =>
    simp only [reIdLoop]
    rw [if_neg hne]
    have hf := servoInstruction_fields s.SERVO_ID 4 3 3 s.ID s bus
    have hne1 : (servoInstruction s.SERVO_ID 4 3 3 s.ID s bus).1.ID ≠
        (servoInstruction s.SERVO_ID 4 3 3 s.ID s bus).1.SERVO_ID := by
      rw [hf.1, hf.2.2.2.1]
      exact hne
    have hno1 : ∀ sess ∈ (servoInstruction s.SERVO_ID 4 3 3 s.ID s bus).2.1.sessions,
        hasValidReply (servoInstruction s.SERVO_ID 4 3 3 s.ID s bus).1.ID sess = false := by
      rw [hf.1, hf.2.2.2.2.2.2.2]
      intro sess hm
      rw [← List.drop_one] at hm
      exact hno sess (List.drop_subset 1 bus.sessions hm)
    rcases reIdPings_fail 10 (servoInstruction s.SERVO_ID 4 3 3 s.ID s bus).1
        (servoInstruction s.SERVO_ID 4 3 3 s.ID s bus).2.1
        (tr ++ (servoInstruction s.SERVO_ID 4 3 3 s.ID s bus).2.2) hne1 hno1 with
      hnone | hsome
    · rw [hnone]
    · obtain ⟨s2, bus2, tr2, hsome2, hid, hsv, ⟨n, hdrop⟩⟩ := hsome
      rw [hf.1] at hid
      rw [hf.2.2.2.1] at hsv
      rw [hf.2.2.2.2.2.2.2] at hdrop
      rw [hsome2]
      have hne2 : s2.ID ≠ s2.SERVO_ID := by
        rw [hid, hsv]
        exact hne
      have hno2 : ∀ sess ∈ bus2.sessions, hasValidReply s2.ID sess = false := by
        intro sess hm
        rw [hdrop] at hm
        have hm2 := List.drop_subset n bus.sessions.tail hm
        rw [← List.drop_one] at hm2
        rw [hid]
        exact hno sess (List.drop_subset 1 bus.sessions hm2)
      exact ih s2 bus2 tr2 hne2 hno2

theorem childRespPre_fields (s : MState) :
    (childRespPre s).1.ID = s.ID ∧ (childRespPre s).1.CONFIGURED = s.CONFIGURED ∧
    (childRespPre s).1.SERVO_ID = s.SERVO_ID ∧ (childRespPre s).1.CHILD = s.CHILD := by
  unfold childRespPre
  repeat' split
  all_goals first
    | exact ⟨configToggle_ID _ _, configToggle_CONFIGURED _ _,
        configToggle_SERVO_ID _ _, configToggle_CHILD _ _⟩
    | exact ⟨rfl, rfl, rfl, rfl⟩

theorem childRespStop_fields (s2 : MState) :
    (childRespStop s2).ID = s2.ID ∧ (childRespStop s2).CONFIGURED = s2.CONFIGURED ∧
    (childRespStop s2).SERVO_ID = s2.SERVO_ID ∧ (childRespStop s2).TIMEOUT = s2.TIMEOUT := by
  unfold childRespStop
  repeat' split
  all_goals exact ⟨rfl, rfl, rfl, rfl⟩

theorem crLoop_spec (s : MState) (bus : Bus) (out : MState × Bus × Bool)
    (h : crLoop s bus = some out) :
    out.1.ID = s.ID ∧ out.1.CONFIGURED = s.CONFIGURED ∧ out.1.SERVO_ID = s.SERVO_ID := by
  unfold crLoop at h
  split at h
  · injection h with h
    subst h
    exact ⟨rfl, rfl, rfl⟩
  · split at h
    · exact Option.noConfusion h
    · rename_i s1 bus1 heq
      injection h with h
      subst h
      have hcs := commandReady_spec _ _ _ heq
      exact ⟨hcs.1, hcs.2.1, hcs.2.2.1⟩
    · rename_i s1 bus1 heq
      have hcs := commandReady_spec _ _ _ heq
      split at h
      · exact Option.noConfusion h
      · injection h with h
        subst h
        exact ⟨hcs.1, hcs.2.1, hcs.2.2.1⟩

theorem childResponse_spec (s : MState) (bus : Bus) (out : MState × Bus × Bool × List Ev)
    (h : childResponse s bus = some out) :
    out.1.ID = s.ID ∧ out.1.CONFIGURED = s.CONFIGURED ∧ out.1.SERVO_ID = s.SERVO_ID ∧
    out.1.TIMEOUT = false := by
  unfold childResponse at h
  split at h
  · exact Option.noConfusion h
  · rename_i p s2 bus2 responded heq
    injection h with h
    subst h
    have hcl := crLoop_spec _ _ _ heq
    have hpre := childRespPre_fields s
    have hstop := childRespStop_fields s2
    refine ⟨?_, ?_, ?_, ?_⟩
    · show (configToggle 1 { childRespStop s2 with TIMEOUT := false }).ID = s.ID
      rw [configToggle_ID]
      show (childRespStop s2).ID = s.ID
      rw [hstop.1]
      have := hcl.1
      rw [hpre.1] at this
      exact this
    · show (configToggle 1 { childRespStop s2 with TIMEOUT := false }).CONFIGURED = s.CONFIGURED
      rw [configToggle_CONFIGURED]
      show (childRespStop s2).CONFIGURED = s.CONFIGURED
      rw [hstop.2.1]
      have := hcl.2.1
      rw [hpre.2.1] at this
      exact this
    · show (configToggle 1 { childRespStop s2 with TIMEOUT := false }).SERVO_ID = s.SERVO_ID
      rw [configToggle_SERVO_ID]
      show (childRespStop s2).SERVO_ID = s.SERVO_ID
      rw [hstop.2.2.1]
      have := hcl.2.2
      rw [hpre.2.2.1] at this
      exact this
    · rfl

theorem childListen_spec (s : MState) (bus : Bus) (out : MState × Bus × Bool × List Ev)
    (h : childListen s bus = some out) :
    out.1.ID = s.ID ∧ out.1.CONFIGURED = s.CONFIGURED ∧ out.1.SERVO_ID = s.SERVO_ID ∧
    out.1.TIMEOUT = false := by
  unfold childListen at h
  split at h
  · exact Option.noConfusion h
  · rename_i p s2 bus2 heq
    injection h with h
    subst h
    have hcs := commandReady_spec _ _ _ heq
    have h1 : s2.ID = s.ID := by
      have := hcs.1
      rw [configToggle_ID] at this
      exact this
    have h2 : s2.CONFIGURED = s.CONFIGURED := by
      have := hcs.2.1
      rw [configToggle_CONFIGURED] at this
      exact this
    have h3 : s2.SERVO_ID = s.SERVO_ID := by
      have := hcs.2.2.1
      rw [configToggle_SERVO_ID] at this
      exact this
    have h4 : s2.TIMEOUT = false := hcs.2.2.2.2.2
    exact ⟨h1, h2, h3, h4⟩
  · rename_i p s2 bus2 heq
    injection h with h
    subst h
    have hcs := commandReady_spec _ _ _ heq
    have h1 : s2.ID = s.ID := by
      have := hcs.1
      rw [configToggle_ID] at this
      exact this
    have h2 : s2.CONFIGURED = s.CONFIGURED := by
      have := hcs.2.1
      rw [configToggle_CONFIGURED] at this
      exact this
    have h3 : s2.SERVO_ID = s.SERVO_ID := by
      have := hcs.2.2.1
      rw [configToggle_SERVO_ID] at this
      exact this
    refine ⟨?_, ?_, ?_, rfl⟩
    · show (configToggle 1 _).ID = s.ID
      rw [configToggle_ID]
      exact h1
    · show (configToggle 1 _).CONFIGURED = s.CONFIGURED
      rw [configToggle_CONFIGURED]
      exact h2
    · show (configToggle 1 _).SERVO_ID = s.SERVO_ID
      rw [configToggle_SERVO_ID]
      exact h3

/-- The event trace of a sayHello emission: the eight-byte hello frame
(type 200, param = the CHILD port letter) written on the TX_014 group
only. -/
def helloEvents (idv childv : Nat) : List Ev :=
  [Ev.cfg 2, Ev.tx014 248, Ev.tx014 248, Ev.tx014 idv, Ev.tx014 0,
   Ev.tx014 200, Ev.tx014 childv, Ev.tx014 85, Ev.tx014 85,
   Ev.txWait014, Ev.cfg 1]

/-- The event trace of the pingResponse / assignedID / configCleared
emissions: the seven-byte frame 248 248 idv 0 typ 85 85 written
interleaved on both TX groups, followed by the spin on both
transmit-complete flags and the switch back to WAIT. -/
def respEvents (idv typ : Nat) : List Ev :=
  [Ev.cfg 2, Ev.tx014 248, Ev.tx23 248, Ev.tx014 248, Ev.tx23 248,
   Ev.tx014 idv, Ev.tx23 idv, Ev.tx014 0, Ev.tx23 0,
   Ev.tx014 typ, Ev.tx23 typ, Ev.tx014 85, Ev.tx23 85,
   Ev.tx014 85, Ev.tx23 85, Ev.txWait014, Ev.txWait23, Ev.cfg 1]

theorem sayHello_events (s : MState) : (sayHello s).2 = helloEvents s.ID s.CHILD := by
  unfold sayHello helloEvents
  simp [configToggle_ID, configToggle_CHILD]

theorem pingResponse_events (s : MState) : (pingResponse s).2 = respEvents s.ID 203 := by
  unfold pingResponse respEvents
  simp [configToggle_ID]

theorem assignedID_events (s : MState) : (assignedID s).2 = respEvents s.ID 202 := by
  unfold assignedID respEvents
  simp [configToggle_ID]

theorem configCleared_events (s : MState) : (configCleared s).2 = respEvents s.ID 205 := by
  unfold configCleared respEvents
  simp [configToggle_ID]

theorem sayHello_fields (s : MState) :
    (sayHello s).1.ID = s.ID ∧ (sayHello s).1.CONFIGURED = s.CONFIGURED ∧
    (sayHello s).1.CHILD = s.CHILD ∧ (sayHello s).1.SERVO_ID = s.SERVO_ID ∧
    (sayHello s).1.TIMEOUT = false ∧ (sayHello s).1.STATE = 1 :=
  ⟨rfl, rfl, rfl, rfl, rfl, rfl⟩

theorem pingResponse_fields (s : MState) :
    (pingResponse s).1.ID = s.ID ∧ (pingResponse s).1.CONFIGURED = s.CONFIGURED ∧
    (pingResponse s).1.CHILD = s.CHILD ∧ (pingResponse s).1.SERVO_ID = s.SERVO_ID ∧
    (pingResponse s).1.TIMEOUT = false ∧ (pingResponse s).1.STATE = 1 :=
  ⟨rfl, rfl, rfl, rfl, rfl, rfl⟩

theorem assignedID_fields (s : MState) :
    (assignedID s).1.ID = s.ID ∧ (assignedID s).1.CONFIGURED = s.CONFIGURED ∧
    (assignedID s).1.CHILD = s.CHILD ∧ (assignedID s).1.SERVO_ID = s.SERVO_ID ∧
    (assignedID s).1.TIMEOUT = false ∧ (assignedID s).1.STATE = 1 :=
  ⟨rfl, rfl, rfl, rfl, rfl, rfl⟩

theorem configCleared_fields (s : MState) :
    (configCleared s).1.ID = s.ID ∧ (configCleared s).1.CONFIGURED = s.CONFIGURED ∧
    (configCleared s).1.CHILD = s.CHILD ∧ (configCleared s).1.SERVO_ID = s.SERVO_ID ∧
    (configCleared s).1.COMMAND_DESTINATION = s.COMMAND_DESTINATION ∧
    (configCleared s).1.TIMEOUT = false ∧ (configCleared s).1.STATE = 1 :=
  ⟨rfl, rfl, rfl, rfl, rfl, rfl, rfl⟩

/-- An environment with no input at all. -/
def emptyBus : Bus :=
  { waitRx := [], hello1 := [], hello2 := [], hello3 := [], hello4 := [],
    child1 := [], child2 := [], child3 := [], child4 := [],
    initRx := [], sessions := [] }

/-- The data-model invariant of the spec: a configured module holds an
assigned ID in 1..=250. -/
def InvConfigured (s : MState) : Prop := s.CONFIGURED = true → 1 ≤ s.ID ∧ s.ID ≤ 250

instance (s : MState) : Decidable (InvConfigured s) := by
  unfold InvConfigured
  infer_instance

/-- True exactly on TX_23 write events. -/
def isTx23 : Ev → Bool
  | Ev.tx23 _ => true
  | _ => false

/-- A module in the Wait role right after initialisation. -/
def c3s : MState := { initState with STATE := 1 }

/-- A well-formed master HELLO frame to the default ID on the Wait
receiver. -/
def c3busA : Bus := { emptyBus with waitRx := [248, 248, 0, 251, 200, 0, 85, 85] }

/-- A Wait-receiver stream with a single 0xF8 and no second start
byte. -/
def c3busB : Bus := { emptyBus with waitRx := [248, 7, 1, 2, 3] }

/-- C3: with cReadChar modelled per the spec's collaborator interface as
a non-destructive peek, the Wait-role frame reader checks the same head
byte twice and then consumes that byte plus four more.  On the
well-formed frame 248 248 0 251 200 0 85 85 it stores the second start
byte 248 as the source and misaligns every following field, and on
248 7 1 2 3 — a stream with no two consecutive 0xF8 bytes — it still
reports a frame, contradicting the contract (two consecutive 0xF8 then
exactly four payload bytes) documented in the packet-structure comment
of main.c itself. -/
theorem c3_frame_reader_misaligned :
    commandReady c3s c3busA =
      some ({ c3s with COMMAND_SOURCE := 248, COMMAND_DESTINATION := 0,
                       COMMAND_TYPE := 251, COMMAND_PARAM := 200 },
            { c3busA with waitRx := [0, 85, 85] }, true) ∧
    commandReady c3s c3busB =
      some ({ c3s with COMMAND_SOURCE := 7, COMMAND_DESTINATION := 1,
                       COMMAND_TYPE := 2, COMMAND_PARAM := 3 },
            { c3busB with waitRx := [] }, true) :=
  ⟨rfl, rfl⟩

/-- A configured module (ID 5, no child) that has just read a PING whose
destination 7 exceeds its own ID. -/
def c9s : MState :=
  { initState with
      STATE := 1, ID := 5, CONFIGURED := true,
      COMMAND_TYPE := 203, COMMAND_DESTINATION := 7 }

/-- C9: a PING with destination 7 > ID 5 while CHILD = 0 sends
takeAction into childResponse; with CHILD = 0 none of its configToggle
branches runs, so no role switch happens and no timeout timer is armed
(the running-timer set stays empty and the pre-loop state is the entry
state itself), and the polling loop can never be released by a timeout:
with no further input the handler never returns, whatever the fuel. -/
theorem c9_childresponse_no_timer :
    c9s.CHILD = 0 ∧ c9s.timers = [] ∧ c9s.ID < c9s.COMMAND_DESTINATION ∧
    (childRespPre c9s).1 = c9s ∧
    (∀ fuel, takeAction fuel c9s emptyBus = none) :=
  ⟨rfl, rfl, by decide, rfl, fun _ => rfl⟩

/-- A fresh unconfigured slave that has just read the master's broadcast
HELLO. -/
def c4s : MState :=
  { initState with STATE := 1, COMMAND_TYPE := 200, COMMAND_DESTINATION := 254 }

/-- C4 counterexample: a fresh unconfigured slave (ID 251) answering a
master HELLO emits its hello frame on the TX_014 group only — the
handler's trace contains no TX_23 write and no spin on the TX_23
transmit-complete flag, refuting the claim that every response emission
(sayHello included) writes its frame on both TX groups and waits for
both flags. -/
theorem c4_hello_not_on_both_groups :
    takeAction 1 c4s emptyBus = some ((sayHello c4s).1, emptyBus, helloEvents 251 0) ∧
    (helloEvents 251 0).filter isTx23 = [] ∧
    Ev.txWait23 ∉ helloEvents 251 0 ∧
    Ev.tx014 200 ∈ helloEvents 251 0 := by
  refine ⟨by decide, by decide, by decide, by decide⟩

/-- C4 (amended): pingResponse, assignedID and configCleared each write
their complete seven-byte response frame interleaved on both TX groups
and spin on both transmit-complete flags before switching back to Wait
(visible in `respEvents`); sayHello, however, writes its hello frame on
the TX_014 group only and waits only for TX_014's transmit-complete
flag, so a fresh unconfigured slave answering a master HELLO emits its
hello on TX_014 only. -/
theorem c4_response_emission_amended (s : MState) :
    (pingResponse s).2 = respEvents s.ID 203 ∧
    (assignedID s).2 = respEvents s.ID 202 ∧
    (configCleared s).2 = respEvents s.ID 205 ∧
    (sayHello s).2 = helloEvents s.ID s.CHILD ∧
    (helloEvents s.ID s.CHILD).filter isTx23 = [] ∧
    (respEvents s.ID 203).filter isTx23 =
      [Ev.tx23 248, Ev.tx23 248, Ev.tx23 s.ID, Ev.tx23 0, Ev.tx23 203,
       Ev.tx23 85, Ev.tx23 85] ∧
    takeAction 1 c4s emptyBus = some ((sayHello c4s).1, emptyBus, helloEvents 251 0) := by
  refine ⟨pingResponse_events s, assignedID_events s, configCleared_events s,
          sayHello_events s, rfl, rfl, by decide⟩

/-- C5: the servo checksum law.  The checksum byte written last on the
wire by servoInstruction satisfies
(id + len + instr + addr + val + c) mod 256 = 255, and the re-ID WRITE
example (id 1, len 4, instr 3, addr 3, val 3) carries checksum 241. -/
theorem c5_servo_checksum_law (id len instr addr val : Nat) (s : MState) (bus : Bus) :
    (id + len + instr + addr + val + servoChecksum id len instr addr val) % 256 = 255 ∧
    (servoInstruction id len instr addr val s bus).2.2 =
      [Ev.cfg 2] ++
        (if instr = 1 then [255, 255, id, len, instr, servoChecksum id len instr addr val]
         else [255, 255, id, len, instr, addr, val,
               servoChecksum id len instr addr val]).map Ev.tx014 ++
        [Ev.txWait014, Ev.cfg 8] ∧
    servoChecksum 1 4 3 3 3 = 241 := by
  refine ⟨?_, rfl, rfl⟩
  unfold servoChecksum
  omega

/-- C10: an ID_ASSIGN addressed to this module whose param is 0 or at
least 251 falls through both guards of the assignment branch: the state,
the environment and the trace are all left untouched — the frame is
silently ignored. -/
theorem c10_out_of_range_ignored (fuel : Nat) (s : MState) (bus : Bus)
    (hty : s.COMMAND_TYPE = 201) (hdst : s.COMMAND_DESTINATION = s.ID)
    (hbad : s.COMMAND_PARAM = 0 ∨ 251 ≤ s.COMMAND_PARAM) :
    takeAction fuel s bus = some (s, bus, []) := by
  have hcond : ¬(0 < s.COMMAND_PARAM ∧ s.COMMAND_PARAM < 251) := by omega
  unfold takeAction
  rw [hty, if_neg (by decide : ¬(201 = 200)), if_neg (by decide : ¬(201 = 203)),
      if_pos rfl, if_pos hdst, if_neg hcond]

/-- An unconfigured module about to receive an out-of-range ID
assignment (param 0) addressed to its default ID. -/
def c10s : MState :=
  { initState with
      STATE := 1, COMMAND_TYPE := 201,
      COMMAND_DESTINATION := 251, COMMAND_PARAM := 0 }

/-- C10 witness: the out-of-range assignment with param 0 to ID 251 is
ignored. -/
theorem c10_out_of_range_ignored_witness :
    c10s.COMMAND_TYPE = 201 ∧ c10s.COMMAND_DESTINATION = c10s.ID ∧
    (c10s.COMMAND_PARAM = 0 ∨ 251 ≤ c10s.COMMAND_PARAM) ∧
    takeAction 3 c10s emptyBus = some (c10s, emptyBus, []) :=
  ⟨rfl, rfl, Or.inl rfl,
   c10_out_of_range_ignored 3 c10s emptyBus rfl rfl (Or.inl rfl)⟩

/-- C2: for a CLEAR_CONFIG (204) frame, the handler emits the
CONFIG_CLEARED (205) response on both TX groups exactly when the
destination equals the module's current ID, and whenever the destination
is at most the module's ID or is the broadcast id 254, the module ends
with ID 251, CONFIGURED false and CHILD 0 while SERVO_ID is untouched;
any other destination leaves the state unchanged. -/
theorem c2_clear_config (fuel : Nat) (s : MState) (bus : Bus)
    (hty : s.COMMAND_TYPE = 204) :
    ∃ s2 tr, takeAction fuel s bus = some (s2, bus, tr) ∧
      ((Ev.tx014 205 ∈ tr ∧ Ev.tx23 205 ∈ tr) ↔ s.COMMAND_DESTINATION = s.ID) ∧
      ((s.COMMAND_DESTINATION ≤ s.ID ∨ s.COMMAND_DESTINATION = 254) →
        s2.ID = 251 ∧ s2.CONFIGURED = false ∧ s2.CHILD = 0 ∧ s2.SERVO_ID = s.SERVO_ID) ∧
      (¬(s.COMMAND_DESTINATION ≤ s.ID ∨ s.COMMAND_DESTINATION = 254) →
        s2.ID = s.ID ∧ s2.CONFIGURED = s.CONFIGURED ∧ s2.CHILD = s.CHILD ∧
        s2.SERVO_ID = s.SERVO_ID) := by
  by_cases hd : s.COMMAND_DESTINATION = s.ID
  · have hcond : s.COMMAND_DESTINATION ≤ s.ID ∨ s.COMMAND_DESTINATION = 254 :=
      Or.inl (le_of_eq hd)
    refine ⟨{ (configCleared s).1 with ID := 251, CONFIGURED := false, CHILD := 0 },
            (configCleared s).2, ?_, ?_, ?_, ?_⟩
    · simp [takeAction, hty, hd, configCleared, configToggle, unloadTimers]
    · rw [configCleared_events]
      simp [respEvents, hd]
    · intro _
      exact ⟨rfl, rfl, rfl, (configCleared_fields s).2.2.2.1⟩
    · intro hnc
      exact absurd hcond hnc
  · by_cases hc : s.COMMAND_DESTINATION ≤ s.ID ∨ s.COMMAND_DESTINATION = 254
    · refine ⟨{ s with ID := 251, CONFIGURED := false, CHILD := 0 }, [], ?_, ?_, ?_, ?_⟩
      · simp [takeAction, hty, hd, hc]
      · simp [hd]
      · intro _
        exact ⟨rfl, rfl, rfl, rfl⟩
      · intro hnc
        exact absurd hc hnc
    · refine ⟨s, [], ?_, ?_, ?_, ?_⟩
      · simp [takeAction, hty, hd, hc]
      · simp [hd]
      · intro hcc
        exact absurd hcc hc
      · intro _
        exact ⟨rfl, rfl, rfl, rfl⟩

/-- A configured module (ID 5, child on port A) that has just read a
CLEAR_CONFIG addressed exactly to it. -/
def c2s : MState :=
  { initState with
      STATE := 1, ID := 5, CONFIGURED := true, CHILD := 65, SERVO_ID := 5,
      COMMAND_TYPE := 204, COMMAND_DESTINATION := 5 }

/-- C2 witness at a CLEAR_CONFIG addressed to ID 5. -/
theorem c2_clear_config_witness :
    c2s.COMMAND_TYPE = 204 ∧
    (∃ s2 tr, takeAction 1 c2s emptyBus = some (s2, emptyBus, tr) ∧
      ((Ev.tx014 205 ∈ tr ∧ Ev.tx23 205 ∈ tr) ↔ c2s.COMMAND_DESTINATION = c2s.ID) ∧
      ((c2s.COMMAND_DESTINATION ≤ c2s.ID ∨ c2s.COMMAND_DESTINATION = 254) →
        s2.ID = 251 ∧ s2.CONFIGURED = false ∧ s2.CHILD = 0 ∧
        s2.SERVO_ID = c2s.SERVO_ID) ∧
      (¬(c2s.COMMAND_DESTINATION ≤ c2s.ID ∨ c2s.COMMAND_DESTINATION = 254) →
        s2.ID = c2s.ID ∧ s2.CONFIGURED = c2s.CONFIGURED ∧ s2.CHILD = c2s.CHILD ∧
        s2.SERVO_ID = c2s.SERVO_ID)) :=
  ⟨rfl, c2_clear_config 1 c2s emptyBus rfl⟩

/-- C1: an ID_ASSIGN (201) addressed to this module with param in
1..=250 stores the param as the new ID, marks the module configured,
and the handler's trace opens with the ID_ASSIGN_OK (202) acknowledge
frame addressed to the master (source = new ID, destination 0), emitted
before the servo re-ID procedure runs; all of this holds whenever the
handler returns. -/
theorem c1_id_assign (fuel : Nat) (s : MState) (bus : Bus)
    (s2 : MState) (bus2 : Bus) (tr : List Ev)
    (hty : s.COMMAND_TYPE = 201) (hdst : s.COMMAND_DESTINATION = s.ID)
    (hlo : 1 ≤ s.COMMAND_PARAM) (hhi : s.COMMAND_PARAM ≤ 250)
    (hrun : takeAction fuel s bus = some (s2, bus2, tr)) :
    s2.ID = s.COMMAND_PARAM ∧ s2.CONFIGURED = true ∧
    ∃ rest, tr = respEvents s.COMMAND_PARAM 202 ++ rest := by
  have hcond : 0 < s.COMMAND_PARAM ∧ s.COMMAND_PARAM < 251 := by omega
  unfold takeAction at hrun
  rw [if_neg (show ¬(s.COMMAND_TYPE = 200) from by rw [hty]; decide),
      if_neg (show ¬(s.COMMAND_TYPE = 203) from by rw [hty]; decide),
      if_pos hty, if_pos hdst, if_pos hcond] at hrun
  have hrun2 : (if s.COMMAND_PARAM = s.SERVO_ID
      then some ((assignedID { s with ID := s.COMMAND_PARAM, CONFIGURED := true }).1, bus,
                 (assignedID { s with ID := s.COMMAND_PARAM, CONFIGURED := true }).2)
      else reIdLoop fuel (assignedID { s with ID := s.COMMAND_PARAM, CONFIGURED := true }).1
             bus (assignedID { s with ID := s.COMMAND_PARAM, CONFIGURED := true }).2) =
      some (s2, bus2, tr) := hrun
  clear hrun
  rename' hrun2 => hrun
  split at hrun
  · simp only [Option.some.injEq, Prod.mk.injEq] at hrun
    obtain ⟨h1, h2, h3⟩ := hrun
    subst h1
    subst h3
    refine ⟨?_, ?_, ⟨[], ?_⟩⟩
    · rw [(assignedID_fields _).1]
    · rw [(assignedID_fields _).2.1]
    · rw [assignedID_events]
      simp
  · have hspec := reIdLoop_spec fuel _ bus _ _ hrun
    obtain ⟨hA, hB, ⟨ext, hC⟩, _, _⟩ := hspec
    refine ⟨?_, ?_, ⟨ext, ?_⟩⟩
    · have h1 : s2.ID =
          (assignedID { s with ID := s.COMMAND_PARAM, CONFIGURED := true }).1.ID := hA
      rw [h1, (assignedID_fields _).1]
    · have h2 : s2.CONFIGURED =
          (assignedID { s with ID := s.COMMAND_PARAM, CONFIGURED := true }).1.CONFIGURED := hB
      rw [h2, (assignedID_fields _).2.1]
    · have h3 : tr =
          (assignedID { s with ID := s.COMMAND_PARAM, CONFIGURED := true }).2 ++ ext := hC
      rw [h3, assignedID_events]

/-- An unconfigured module that has just read an ID_ASSIGN of ID 5
addressed to its default ID 251. -/
def c1s : MState :=
  { initState with
      STATE := 1, COMMAND_TYPE := 201,
      COMMAND_DESTINATION := 251, COMMAND_PARAM := 5 }

/-- The servo answers the first re-ID ping with source 5, error 0 (the
first session is the unused WRITE listening window). -/
def c1bus : Bus := { emptyBus with sessions := [[], [255, 5, 2, 0, 0]] }

/-- The result of the C1 witness run. -/
def c1res : MState × Bus × List Ev := (takeAction 2 c1s c1bus).getD (c1s, c1bus, [])

/-- C1 witness: assigning ID 5 to the fresh module stores 5, configures
the module, and acknowledges with the ID_ASSIGN_OK frame. -/
theorem c1_id_assign_witness :
    c1s.COMMAND_TYPE = 201 ∧ c1s.COMMAND_DESTINATION = c1s.ID ∧
    1 ≤ c1s.COMMAND_PARAM ∧ c1s.COMMAND_PARAM ≤ 250 ∧
    takeAction 2 c1s c1bus = some (c1res.1, c1res.2.1, c1res.2.2) ∧
    (c1res.1.ID = c1s.COMMAND_PARAM ∧ c1res.1.CONFIGURED = true ∧
      ∃ rest, c1res.2.2 = respEvents c1s.COMMAND_PARAM 202 ++ rest) :=
  ⟨rfl, rfl, by decide, by decide, rfl,
   c1_id_assign 2 c1s c1bus c1res.1 c1res.2.1 c1res.2.2 rfl rfl (by decide) (by decide) rfl⟩

theorem reIdPings_drop (k : Nat) (s : MState) (bus : Bus) (tr : List Ev)
    (out : MState × Bus × List Ev) (h : reIdPings k s bus tr = some out) :
    ∃ n, n ≤ k ∧ out.2.1.sessions = bus.sessions.drop n := by
  induction k generalizing s bus tr with
  | zero =>
    simp only [reIdPings, Option.some.injEq] at h
    subst h
    exact ⟨0, by omega, by simp⟩
  | succ k ih =>
    simp only [reIdPings] at h
    split at h
    · exact Option.noConfusion h
    · rename_i p s2 bus2 heq
      have hsess2 : bus2.sessions = bus.sessions.tail := by
        have hs := initListen_sessions _ _ _ heq
        rw [hs, (servoInstruction_fields 254 2 1 0 0 s bus).2.2.2.2.2.2.2]
      split at h
      · injection h with h
        subst h
        exact ⟨1, by omega, by simp [hsess2]⟩
      · obtain ⟨n, hn, hE⟩ := ih _ _ _ h
        exact ⟨n + 1, by omega,
          by rw [hE, hsess2, ← List.drop_one, List.drop_drop, Nat.add_comm]⟩

/-- C6: the re-ID procedure, entered while ID differs from SERVO_ID:
whenever it returns it has set SERVO_ID to the module's ID and switched
back to the Wait role, and a servo reply with source = ID and error 0
was available in one of the consumed listening sessions; its trace opens
with the servo EEPROM WRITE of the new ID to address 3 (value = ID)
addressed to the old SERVO_ID; when the environment offers no such reply
the procedure never returns, whatever the fuel; and each round's
ping-and-listen retry loop consumes at most SERVO_COMM_ATTEMPTS = 10
listening sessions. -/
theorem c6_reid_procedure (fuel : Nat) (s : MState) (bus : Bus) (tr0 : List Ev)
    (hne : s.ID ≠ s.SERVO_ID) :
    (∀ out, reIdLoop fuel s bus tr0 = some out →
      out.1.SERVO_ID = s.ID ∧ out.1.ID = s.ID ∧ out.1.STATE = 1 ∧
      (∃ sess ∈ bus.sessions, hasValidReply s.ID sess = true) ∧
      (∃ rest, out.2.2 = tr0 ++ servoWriteEvs s.SERVO_ID s.ID ++ rest)) ∧
    ((∀ sess ∈ bus.sessions, hasValidReply s.ID sess = false) →
      reIdLoop fuel s bus tr0 = none) ∧
    (∀ s1 bus1 tr1 out, reIdPings 10 s1 bus1 tr1 = some out →
      ∃ n, n ≤ 10 ∧ out.2.1.sessions = bus1.sessions.drop n) := by
  refine ⟨?_, ?_, ?_⟩
  · intro out hout
    obtain ⟨hA, _, _, _, hNe⟩ := reIdLoop_spec fuel s bus tr0 out hout
    obtain ⟨h1, _, h3, h4, h5⟩ := hNe hne
    exact ⟨h1, hA, h3, h4, h5⟩
  · intro hno
    exact reIdLoop_fail fuel s bus tr0 hne hno
  · intro s1 bus1 tr1 out hout
    exact reIdPings_drop 10 s1 bus1 tr1 out hout

/-- A configured module whose assigned ID 3 differs from the discovered
servo id 1. -/
def c6s : MState :=
  { initState with STATE := 1, ID := 3, CONFIGURED := true, SERVO_ID := 1 }

/-- The servo answers the first re-ID ping with source 3, error 0. -/
def c6bus : Bus := { emptyBus with sessions := [[], [255, 3, 2, 0, 0]] }

/-- C6 witness at ID 3 and SERVO_ID 1, the spec's own example. -/
theorem c6_reid_procedure_witness :
    c6s.ID ≠ c6s.SERVO_ID ∧
    ((∀ out, reIdLoop 2 c6s c6bus [] = some out →
      out.1.SERVO_ID = c6s.ID ∧ out.1.ID = c6s.ID ∧ out.1.STATE = 1 ∧
      (∃ sess ∈ c6bus.sessions, hasValidReply c6s.ID sess = true) ∧
      (∃ rest, out.2.2 = [] ++ servoWriteEvs c6s.SERVO_ID c6s.ID ++ rest)) ∧
    ((∀ sess ∈ c6bus.sessions, hasValidReply c6s.ID sess = false) →
      reIdLoop 2 c6s c6bus [] = none) ∧
    (∀ s1 bus1 tr1 out, reIdPings 10 s1 bus1 tr1 = some out →
      ∃ n, n ≤ 10 ∧ out.2.1.sessions = bus1.sessions.drop n)) :=
  ⟨by decide, c6_reid_procedure 2 c6s c6bus [] (by decide)⟩

/-- A fresh module receiving an ID_ASSIGN of ID 6 at default ID 251. -/
def c8s : MState :=
  { initState with
      STATE := 1, COMMAND_TYPE := 201,
      COMMAND_DESTINATION := 251, COMMAND_PARAM := 6 }

/-- The servo answers the first re-ID ping with source 6, error 0. -/
def c8bus : Bus := { emptyBus with sessions := [[], [255, 6, 2, 0, 0]] }

/-- Result of the C8 counterexample run of takeAction. -/
def c8res : MState × Bus × List Ev := (takeAction 2 c8s c8bus).getD (c8s, c8bus, [])

/-- C8 counterexample: after a successful ID assignment whose re-ID loop
exits by a timer expiry, takeAction returns with TIMEOUT still set — the
flag is not cleared on every return path of every blocking routine. -/
theorem c8_takeaction_returns_timeout_set :
    takeAction 2 c8s c8bus = some (c8res.1, c8res.2.1, c8res.2.2) ∧
    c8res.1.TIMEOUT = true :=
  ⟨rfl, rfl⟩

/-- C8 (amended): childListen and childResponse do clear TIMEOUT before
returning on every return path, but the re-ID polling loop inside
takeAction exits by setting TIMEOUT and, whenever it was actually
entered (ID ≠ SERVO_ID) and returned, leaves TIMEOUT set. -/
theorem c8_timeout_amended :
    (∀ s bus out, childListen s bus = some out → out.1.TIMEOUT = false) ∧
    (∀ s bus out, childResponse s bus = some out → out.1.TIMEOUT = false) ∧
    (∀ fuel s bus tr out, s.ID ≠ s.SERVO_ID → reIdLoop fuel s bus tr = some out →
      out.1.TIMEOUT = true) :=
  ⟨fun s bus out h => (childListen_spec s bus out h).2.2.2,
   fun s bus out h => (childResponse_spec s bus out h).2.2.2,
   fun fuel s bus tr out hne h => ((reIdLoop_spec fuel s bus tr out h).2.2.2.2 hne).2.1⟩

/-- A configured module with no child, used for the childListen run. -/
def c8ls : MState := { initState with STATE := 1, CONFIGURED := true, ID := 9 }

/-- A configured module with child port 1 attached, for childResponse. -/
def c8rs : MState := { initState with STATE := 1, CONFIGURED := true, ID := 9, CHILD := 65 }

/-- A configured module whose SERVO_ID still differs from its ID. -/
def c8rid : MState := { initState with STATE := 1, CONFIGURED := true, ID := 6 }

/-- Result of the childListen run for the C8 witness. -/
def c8lres : MState × Bus × Bool × List Ev :=
  (childListen c8ls emptyBus).getD (c8ls, emptyBus, false, [])

/-- Result of the childResponse run for the C8 witness. -/
def c8rres : MState × Bus × Bool × List Ev :=
  (childResponse c8rs emptyBus).getD (c8rs, emptyBus, false, [])

/-- Result of the re-ID loop run for the C8 witness. -/
def c8ridres : MState × Bus × List Ev :=
  (reIdLoop 2 c8rid c8bus []).getD (c8rid, c8bus, [])

/-- C8 witness: concrete runs of all three amended conjuncts. -/
theorem c8_timeout_amended_witness :
    childListen c8ls emptyBus = some (c8lres.1, c8lres.2.1, c8lres.2.2.1, c8lres.2.2.2) ∧
    c8lres.1.TIMEOUT = false ∧
    childResponse c8rs emptyBus = some (c8rres.1, c8rres.2.1, c8rres.2.2.1, c8rres.2.2.2) ∧
    c8rres.1.TIMEOUT = false ∧
    c8rid.ID ≠ c8rid.SERVO_ID ∧
    reIdLoop 2 c8rid c8bus [] = some (c8ridres.1, c8ridres.2.1, c8ridres.2.2) ∧
    c8ridres.1.TIMEOUT = true :=
  ⟨rfl, c8_timeout_amended.1 c8ls emptyBus _ rfl,
   rfl, c8_timeout_amended.2.1 c8rs emptyBus _ rfl,
   by decide,
   rfl, c8_timeout_amended.2.2 2 c8rid c8bus [] _ (by decide) rfl⟩

theorem invConfigured_of_eq {s t : MState} (hID : t.ID = s.ID)
    (hC : t.CONFIGURED = s.CONFIGURED) (h : InvConfigured s) : InvConfigured t := by
  intro hc
  rw [hID]
  exact h (hC ▸ hc)

theorem takeAction_inv (fuel : Nat) (s : MState) (bus : Bus)
    (out : MState × Bus × List Ev) (hs : InvConfigured s)
    (h : takeAction fuel s bus = some out) : InvConfigured out.1 := by
  unfold takeAction at h
  by_cases h200 : s.COMMAND_TYPE = 200
  · rw [if_pos h200] at h
    by_cases hconf : s.CONFIGURED = false
    · rw [if_pos hconf] at h
      injection h with h
      subst h
      exact invConfigured_of_eq (sayHello_fields s).1 (sayHello_fields s).2.1 hs
    · rw [if_neg hconf] at h
      by_cases hch : s.CHILD = 0
      · rw [if_pos hch] at h
        split at h
        · exact Option.noConfusion h
        · rename_i s1 bus1 tr1 heq
          injection h with h
          subst h
          have hcl := childListen_spec _ _ _ heq
          have hs1 : InvConfigured s1 := invConfigured_of_eq hcl.1 hcl.2.1 hs
          exact invConfigured_of_eq (sayHello_fields s1).1 (sayHello_fields s1).2.1 hs1
        · rename_i s1 bus1 tr1 heq
          injection h with h
          subst h
          have hcl := childListen_spec _ _ _ heq
          exact invConfigured_of_eq hcl.1 hcl.2.1 hs
      · rw [if_neg hch] at h
        split at h
        · exact Option.noConfusion h
        · rename_i s1 bus1 rb tr1 heq
          injection h with h
          subst h
          have hcr := childResponse_spec _ _ _ heq
          exact invConfigured_of_eq hcr.1 hcr.2.1 hs
  · rw [if_neg h200] at h
    by_cases h203 : s.COMMAND_TYPE = 203
    · rw [if_pos h203] at h
      by_cases hd : s.COMMAND_DESTINATION = s.ID
      · rw [if_pos hd] at h
        injection h with h
        subst h
        exact invConfigured_of_eq (pingResponse_fields s).1 (pingResponse_fields s).2.1 hs
      · rw [if_neg hd] at h
        by_cases hlt : s.ID < s.COMMAND_DESTINATION
        · rw [if_pos hlt] at h
          split at h
          · exact Option.noConfusion h
          · rename_i s1 bus1 rb tr1 heq
            injection h with h
            subst h
            have hcr := childResponse_spec _ _ _ heq
            exact invConfigured_of_eq hcr.1 hcr.2.1 hs
        · rw [if_neg hlt] at h
          injection h with h
          subst h
          exact hs
    · rw [if_neg h203] at h
      by_cases h201 : s.COMMAND_TYPE = 201
      · rw [if_pos h201] at h
        by_cases hd : s.COMMAND_DESTINATION = s.ID
        · rw [if_pos hd] at h
          by_cases hp : 0 < s.COMMAND_PARAM ∧ s.COMMAND_PARAM < 251
          · rw [if_pos hp] at h
            have h2 : (if (assignedID { s with ID := s.COMMAND_PARAM, CONFIGURED := true }).1.ID
                  = (assignedID { s with ID := s.COMMAND_PARAM, CONFIGURED := true }).1.SERVO_ID
                then
                  some ((assignedID { s with ID := s.COMMAND_PARAM, CONFIGURED := true }).1, bus,
                    (assignedID { s with ID := s.COMMAND_PARAM, CONFIGURED := true }).2)
                else
                  reIdLoop fuel
                    (assignedID { s with ID := s.COMMAND_PARAM, CONFIGURED := true }).1 bus
                    (assignedID { s with ID := s.COMMAND_PARAM, CONFIGURED := true }).2)
                = some out := h
            clear h
            have hIDa : (assignedID
                { s with ID := s.COMMAND_PARAM, CONFIGURED := true }).1.ID = s.COMMAND_PARAM :=
              (assignedID_fields _).1
            split at h2
            · injection h2 with h2
              have hout : out.1.ID = s.COMMAND_PARAM := by rw [← h2]; exact hIDa
              intro _
              rw [hout]
              omega
            · have hrl := (reIdLoop_spec _ _ _ _ _ h2).1
              have hout : out.1.ID = s.COMMAND_PARAM := by rw [hrl]; exact hIDa
              intro _
              rw [hout]
              omega
          · rw [if_neg hp] at h
            injection h with h
            subst h
            exact hs
        · rw [if_neg hd] at h
          by_cases hlt : s.ID < s.COMMAND_DESTINATION
          · rw [if_pos hlt] at h
            split at h
            · exact Option.noConfusion h
            · rename_i s1 bus1 rb tr1 heq
              injection h with h
              subst h
              have hcr := childResponse_spec _ _ _ heq
              exact invConfigured_of_eq hcr.1 hcr.2.1 hs
          · rw [if_neg hlt] at h
            injection h with h
            subst h
            exact hs
      · rw [if_neg h201] at h
        by_cases h204 : s.COMMAND_TYPE = 204
        · rw [if_pos h204] at h
          by_cases hd : s.COMMAND_DESTINATION = s.ID
          · rw [if_pos hd] at h
            have h2 : (if (configCleared s).1.COMMAND_DESTINATION ≤ (configCleared s).1.ID
                  ∨ (configCleared s).1.COMMAND_DESTINATION = 254 then
                some ({ (configCleared s).1 with ID := 251, CONFIGURED := false, CHILD := 0 },
                  bus, (configCleared s).2)
              else some ((configCleared s).1, bus, (configCleared s).2)) = some out := h
            clear h
            split at h2
            · injection h2 with h2
              subst h2
              intro hc
              exact Bool.noConfusion hc
            · injection h2 with h2
              subst h2
              exact invConfigured_of_eq (configCleared_fields s).1
                (configCleared_fields s).2.1 hs
          · rw [if_neg hd] at h
            have h2 : (if s.COMMAND_DESTINATION ≤ s.ID ∨ s.COMMAND_DESTINATION = 254 then
                some ({ s with ID := 251, CONFIGURED := false, CHILD := 0 },
                  bus, ([] : List Ev))
              else some (s, bus, ([] : List Ev))) = some out := h
            clear h
            split at h2
            · injection h2 with h2
              subst h2
              intro hc
              exact Bool.noConfusion hc
            · injection h2 with h2
              subst h2
              exact hs
        · rw [if_neg h204] at h
          injection h with h
          subst h
          exact hs

/-- C7: the data-model invariant — a configured module holds an assigned
ID in 1..=250 — holds in the initial state and is preserved by every
modelled operation of the firmware: the takeAction dispatcher, the frame
reader, both child-port routines, every response emission, the servo
channel primitive, and every configuration switch. -/
theorem c7_configured_id_invariant :
    InvConfigured initState ∧
    (∀ fuel s bus out, InvConfigured s → takeAction fuel s bus = some out →
      InvConfigured out.1) ∧
    (∀ s bus out, InvConfigured s → commandReady s bus = some out → InvConfigured out.1) ∧
    (∀ s bus out, InvConfigured s → childListen s bus = some out → InvConfigured out.1) ∧
    (∀ s bus out, InvConfigured s → childResponse s bus = some out → InvConfigured out.1) ∧
    (∀ s, InvConfigured s → InvConfigured (sayHello s).1) ∧
    (∀ s, InvConfigured s → InvConfigured (pingResponse s).1) ∧
    (∀ s, InvConfigured s → InvConfigured (assignedID s).1) ∧
    (∀ s, InvConfigured s → InvConfigured (configCleared s).1) ∧
    (∀ id len instr addr val s bus, InvConfigured s →
      InvConfigured (servoInstruction id len instr addr val s bus).1) ∧
    (∀ m s, InvConfigured s → InvConfigured (configToggle m s)) := by
  refine ⟨by decide, takeAction_inv, ?_, ?_, ?_, ?_, ?_, ?_, ?_, ?_, ?_⟩
  · intro s bus out hs h
    exact invConfigured_of_eq (commandReady_spec s bus out h).1
      (commandReady_spec s bus out h).2.1 hs
  · intro s bus out hs h
    exact invConfigured_of_eq (childListen_spec s bus out h).1
      (childListen_spec s bus out h).2.1 hs
  · intro s bus out hs h
    exact invConfigured_of_eq (childResponse_spec s bus out h).1
      (childResponse_spec s bus out h).2.1 hs
  · intro s hs
    exact invConfigured_of_eq (sayHello_fields s).1 (sayHello_fields s).2.1 hs
  · intro s hs
    exact invConfigured_of_eq (pingResponse_fields s).1 (pingResponse_fields s).2.1 hs
  · intro s hs
    exact invConfigured_of_eq (assignedID_fields s).1 (assignedID_fields s).2.1 hs
  · intro s hs
    exact invConfigured_of_eq (configCleared_fields s).1 (configCleared_fields s).2.1 hs
  · intro id len instr addr val s bus hs
    exact invConfigured_of_eq (servoInstruction_fields id len instr addr val s bus).1
      (servoInstruction_fields id len instr addr val s bus).2.1 hs
  · intro m s hs
    exact invConfigured_of_eq (configToggle_ID m s) (configToggle_CONFIGURED m s) hs

/-- A configured module answering a ping addressed to itself, for the
C7 witness run. -/
def c7s : MState :=
  { initState with
      STATE := 1, CONFIGURED := true, ID := 7,
      COMMAND_TYPE := 203, COMMAND_DESTINATION := 7 }

/-- C7 witness: the invariant holds initially, holds of a concrete
configured state, and survives a concrete takeAction run on it. -/
theorem c7_configured_id_invariant_witness :
    InvConfigured initState ∧ InvConfigured c7s ∧
    InvConfigured ((takeAction 1 c7s emptyBus).getD (c7s, emptyBus, [])).1 :=
  ⟨c7_configured_id_invariant.1, by decide,
   c7_configured_id_invariant.2.1 1 c7s emptyBus
     ((takeAction 1 c7s emptyBus).getD (c7s, emptyBus, [])) (by decide) rfl⟩
